import Mathlib

/-!
Verification of the ALICE conversation engine (`alice_core.py`, with the
constrained profile from `alice_pi_optimized.py`).

The development shallowly embeds the engine: the memory manager with its
bounded short-term buffer and its SQLite-backed long-term store, the persona
registry, the mode controller, the command dispatcher, and the orchestrator's
turn life cycle.  External effects (wall-clock time, the generation backend,
durable-storage availability) are made explicit as parameters.  Python string
operations used by the dispatcher (`lower`, `strip`, `startswith`, slicing)
are embedded as structurally recursive functions over the character list of a
string so that they compute.
-/

namespace Alice

/-! ## Python string primitives -/

/-- Python `str.lower` on one character, for the ASCII range (the only
characters the engine ever compares). -/
def pyLowerChar (c : Char) : Char :=
  if 'A' ≤ c ∧ c ≤ 'Z' then Char.ofNat (c.toNat + 32) else c

/-- Python `str.lower`. -/
def pyLower (s : String) : String := String.mk (s.data.map pyLowerChar)

/-- Python whitespace test used by `str.strip`. -/
def wsChar (c : Char) : Bool := c == ' ' || c == '\t' || c == '\n' || c == '\r'

/-- Python `str.strip`: drop leading and trailing whitespace. -/
def pyStrip (s : String) : String :=
  String.mk (((s.data.dropWhile wsChar).reverse.dropWhile wsChar).reverse)

/-- Python `s.startswith(pre)`. -/
def pyStartsWith (s pre : String) : Bool := pre.data.isPrefixOf s.data

/-- Python slice `s[n:]`. -/
def pyDrop (s : String) (n : Nat) : String := String.mk (s.data.drop n)

/-- Python slice `s[:n]`. -/
def pyTake (s : String) (n : Nat) : String := String.mk (s.data.take n)

/-- Python `sep.join(items)`. -/
def joinSep (sep : String) : List String → String
  | [] => ""
  | [x] => x
  | x :: y :: xs => x ++ sep ++ joinSep sep (y :: xs)

/-- Python slice `l[-n:]` (for `n > 0`): the last `n` elements, or all of
them when fewer are present. -/
def takeLast {α : Type} (n : Nat) (l : List α) : List α := l.drop (l.length - n)

/-! ## Mode set (`AIMode` enum, alice_core.py) -/

/-- The closed mode set of `alice_core.py`. -/
inductive AIMode : Type where
  | assistant
  | companion
  | roleplay
  | dungeon_master
  | storyteller
deriving DecidableEq, Repr

/-- The enum's string value (`AIMode.<member>.value`). -/
def AIMode.value : AIMode → String
  | .assistant => "assistant"
  | .companion => "companion"
  | .roleplay => "roleplay"
  | .dungeon_master => "dungeon_master"
  | .storyteller => "storyteller"

/-- Declaration-order member list: Python `list(AIMode)` / `for m in AIMode`. -/
def AIMode.all : List AIMode :=
  [.assistant, .companion, .roleplay, .dungeon_master, .storyteller]

/-- The `AIMode(name)` constructor call: `some m` when `name` is one of the
enum values, `none` for the `ValueError` path. -/
def AIMode.ofString? (s : String) : Option AIMode :=
  AIMode.all.find? (fun m => m.value == s)

/-! ## Memory system (`MemoryManager`, alice_core.py) -/

/-- One short-term memory entry: the dict built by
`MemoryManager.add_to_short_term`. -/
structure Entry where
  timestamp : String
  user_input : String
  alice_response : String
  mode : String
deriving DecidableEq, Repr

/-- In-memory state of `MemoryManager`: the `short_term_memory` list and the
`max_short_term` bound. -/
structure MemoryManager where
  short_term_memory : List Entry
  max_short_term : Nat
deriving DecidableEq, Repr

/-- `MemoryManager.__init__`: empty buffer, `max_short_term = 20`. -/
def MemoryManager.init : MemoryManager :=
  { short_term_memory := [], max_short_term := 20 }

/-- `MemoryManager.add_to_short_term`: append the new entry, then `pop(0)`
(drop the oldest entry) when the bound is exceeded.  `now` is the value of
`datetime.now().isoformat()`, made explicit. -/
def MemoryManager.add_to_short_term (m : MemoryManager)
    (now user_input alice_response : String) (mode : AIMode) : MemoryManager :=
  let entry : Entry :=
    { timestamp := now, user_input := user_input,
      alice_response := alice_response, mode := mode.value }
  let stm := m.short_term_memory ++ [entry]
  { m with short_term_memory := if stm.length > m.max_short_term then stm.tail else stm }

/-- The entry that one `add_to_short_term` call with the given
(timestamp, user text, agent text, mode) arguments constructs. -/
def mkEntry (c : String × String × String × AIMode) : Entry :=
  { timestamp := c.1, user_input := c.2.1, alice_response := c.2.2.1, mode := c.2.2.2.value }

/-- A sequence of `add_to_short_term` calls. -/
def MemoryManager.addAll (m : MemoryManager)
    (calls : List (String × String × String × AIMode)) : MemoryManager :=
  calls.foldl (fun acc c => acc.add_to_short_term c.1 c.2.1 c.2.2.1 c.2.2.2) m

/-- One short-term entry of the constrained profile
(`MemoryManagerPi.add_to_short_term`, alice_pi_optimized.py): no timestamp. -/
structure EntryPi where
  user_input : String
  alice_response : String
  mode : String
deriving DecidableEq, Repr

/-- In-memory state of `MemoryManagerPi` (alice_pi_optimized.py). -/
structure MemoryManagerPi where
  short_term_memory : List EntryPi
  max_short_term : Nat
deriving DecidableEq, Repr

/-- `MemoryManagerPi.__init__`: empty buffer, `max_short_term = 5`. -/
def MemoryManagerPi.init : MemoryManagerPi :=
  { short_term_memory := [], max_short_term := 5 }

/-- `MemoryManagerPi.add_to_short_term`: same append / `pop(0)` discipline as
the full profile. -/
def MemoryManagerPi.add_to_short_term (m : MemoryManagerPi)
    (user_input alice_response : String) (mode : AIMode) : MemoryManagerPi :=
  let entry : EntryPi :=
    { user_input := user_input, alice_response := alice_response, mode := mode.value }
  let stm := m.short_term_memory ++ [entry]
  { m with short_term_memory := if stm.length > m.max_short_term then stm.tail else stm }

/-- The entry one Pi-profile `add_to_short_term` call constructs. -/
def mkEntryPi (c : String × String × AIMode) : EntryPi :=
  { user_input := c.1, alice_response := c.2.1, mode := c.2.2.value }

/-- A sequence of Pi-profile `add_to_short_term` calls. -/
def MemoryManagerPi.addAll (m : MemoryManagerPi)
    (calls : List (String × String × AIMode)) : MemoryManagerPi :=
  calls.foldl (fun acc c => acc.add_to_short_term c.1 c.2.1 c.2.2) m

/-! ## The `user_facts` table and `store_user_fact` -/

/-- One row of the `user_facts` table created by
`MemoryManager._init_database`.  The schema is
`id INTEGER PRIMARY KEY AUTOINCREMENT, category TEXT, key TEXT, value TEXT,
confidence REAL, last_updated TEXT`; the REAL confidence is modelled as a
rational (the engine only stores it, never computes with it). -/
structure FactRow where
  id : Nat
  category : String
  key : String
  value : String
  confidence : Rat
  last_updated : String
deriving DecidableEq, Repr

/-- The `user_facts` table with its AUTOINCREMENT counter. -/
structure UserFactsTable where
  rows : List FactRow
  nextId : Nat
deriving DecidableEq, Repr

/-- A freshly created `user_facts` table. -/
def UserFactsTable.empty : UserFactsTable := { rows := [], nextId := 1 }

/-- `MemoryManager.store_user_fact`, i.e. the statement
`INSERT OR REPLACE INTO user_facts (category, key, value, confidence,
last_updated) VALUES (?, ?, ?, ?, ?)`.  SQLite's `OR REPLACE` first deletes
every existing row that would violate a uniqueness constraint of the new row
and then inserts it.  The only uniqueness constraint the schema declares is
the `id` primary key, and the INSERT omits `id`, so SQLite assigns the fresh
AUTOINCREMENT value; the delete-on-conflict step is the filter below, which
removes nothing because no stored row carries the fresh id.  The schema has
no UNIQUE constraint on (category, key). -/
def MemoryManager.store_user_fact (t : UserFactsTable)
    (category key value : String) (confidence : Rat) (now : String) : UserFactsTable :=
  let newRow : FactRow :=
    { id := t.nextId, category := category, key := key, value := value,
      confidence := confidence, last_updated := now }
  { rows := t.rows.filter (fun r => r.id != newRow.id) ++ [newRow],
    nextId := t.nextId + 1 }

/-- `MemoryManager.get_user_facts` with a category argument:
`SELECT key, value, confidence FROM user_facts WHERE category = ?`, returned
in rowid order. -/
def MemoryManager.get_user_facts (t : UserFactsTable) (category : String) :
    List (String × String × Rat) :=
  (t.rows.filter (fun r => r.category == category)).map
    (fun r => (r.key, r.value, r.confidence))

/-! ## The `conversations` table and `save_to_long_term` -/

/-- A raised `sqlite3` error from a durable write. -/
inductive StorageError : Type where
  | raised
deriving DecidableEq, Repr

/-- One row of the `conversations` table. -/
structure ConvRow where
  timestamp : String
  mode : String
  user_input : String
  alice_response : String
  context_data : String
deriving DecidableEq, Repr

/-- `MemoryManager.save_to_long_term`: inserts one `conversations` row; the
sqlite calls raise when the durable backend is unavailable (`storageOk =
false`), in which case nothing is written.  The `context_data` blob is
`json.dumps({})` for the default `context_data=None`. -/
def save_to_long_term (log : List ConvRow) (storageOk : Bool)
    (now user_input alice_response : String) (mode : AIMode) :
    Except StorageError (List ConvRow) :=
  if storageOk then
    .ok (log ++ [{ timestamp := now, mode := mode.value, user_input := user_input,
                   alice_response := alice_response, context_data := "\x7b\x7d" }])
  else
    .error .raised

/-! ## Persona registry (`PersonaManager`, alice_core.py) -/

/-- A persona record of `PersonaManager.personas`. -/
structure Persona where
  name : String
  personality : String
  style : String
  restrictions : List String
  greeting : String
deriving DecidableEq, Repr

/-- `PersonaManager.get_persona`: `self.personas.get(mode,
self.personas[AIMode.ASSISTANT])`.  The dictionary maps every member of the
closed mode set, so the lookup is the total function below (the `.get`
default makes an absent mode fall back to the assistant persona, which is
unreachable for the closed enum). -/
def PersonaManager.get_persona : AIMode → Persona
  | .assistant =>
    { name := "ALICE Assistant",
      personality := "Professional, helpful, and informative. Focuses on practical assistance.",
      style := "Clear, concise, and organized responses. Uses bullet points when appropriate.",
      restrictions := ["Keep responses PG-13", "Focus on factual information",
                       "Avoid controversial topics"],
      greeting := "Hello! I\x27m ALICE in Assistant mode. How can I help you today?" }
  | .companion =>
    { name := "ALICE Companion",
      personality := "Friendly, conversational, and empathetic. More casual and personal.",
      style := "Natural, flowing conversation. Uses humor and shows interest in user\x27s life.",
      restrictions := ["Respect user boundaries", "Be supportive and understanding"],
      greeting := "Hey there! I\x27m ALICE in Companion mode. What\x27s on your mind?" }
  | .roleplay =>
    { name := "ALICE Roleplay",
      personality := "Adaptable, creative, and immersive. Becomes characters as needed.",
      style := "Descriptive, engaging, and character-appropriate responses.",
      restrictions := ["Follow established character rules", "Maintain narrative consistency"],
      greeting := "Greetings! I\x27m ALICE in Roleplay mode. What character or scenario shall we explore?" }
  | .dungeon_master =>
    { name := "ALICE DM",
      personality := "Creative storyteller, fair but challenging game master.",
      style := "Descriptive narration, clear rule explanations, engaging scenarios.",
      restrictions := ["Follow game rules fairly", "Create balanced challenges"],
      greeting := "Welcome, adventurer! I\x27m ALICE, your Dungeon Master. Ready to begin your quest?" }
  | .storyteller =>
    { name := "ALICE Storyteller",
      personality := "Imaginative, dramatic, and engaging narrator.",
      style := "Rich descriptions, compelling narratives, emotional depth.",
      restrictions := ["Maintain story coherence", "Engage audience appropriately"],
      greeting := "Once upon a time... I\x27m ALICE in Storyteller mode. What tale shall we weave together?" }

/-- `PersonaManager.get_system_prompt`: deterministic template expansion of
the persona, with the restriction list rendered as `- r` lines joined by
`chr(10)`. -/
def PersonaManager.get_system_prompt (mode : AIMode) : String :=
  let persona := PersonaManager.get_persona mode
  "You are " ++ persona.name ++ ".\n\nPersonality: " ++ persona.personality ++
  "\n\nCommunication Style: " ++ persona.style ++ "\n\nRestrictions:\n" ++
  joinSep "\n" (persona.restrictions.map (fun r => "- " ++ r)) ++
  "\n\nRemember to stay in character for this mode while being helpful and engaging."

/-! ## Configuration (`AliceConfig`, alice_core.py) -/

/-- The configuration record.  The Python floats `temperature` and `top_p`
are modelled as rationals (the engine only reads and prints them). -/
structure AliceConfig where
  current_mode : AIMode
  max_context_length : Nat
  temperature : Rat
  top_p : Rat
  max_tokens : Nat
  model_name : String
  safety_level : String
  memory_retention_days : Nat
  log_conversations : Bool
  web_interface_port : Nat
deriving DecidableEq, Repr

/-- The dataclass defaults of `AliceConfig`. -/
def AliceConfig.defaults : AliceConfig :=
  { current_mode := .assistant, max_context_length := 2048, temperature := 7/10,
    top_p := 9/10, max_tokens := 150, model_name := "gpt2",
    safety_level := "moderate", memory_retention_days := 30,
    log_conversations := true, web_interface_port := 7860 }

/-! ## Model backend boundary (`HuggingFaceModel`, alice_core.py) -/

/-- Outcome of the externally executed generation attempt inside
`HuggingFaceModel.generate_response`: the `try` body (tokenize, sample,
decode, clean) either produces a final cleaned response string, or raises. -/
inductive BackendOutcome : Type where
  | ok (text : String)
  | raises (msg : String)
deriving DecidableEq, Repr

/-- Explicit per-call environment for the nondeterministic and external
effects: the wall clock, whether the backend load attempt succeeds, the
generation outcome, and whether the durable storage accepts writes. -/
structure Env where
  now : String
  loadOk : Bool
  backend : BackendOutcome
  storageOk : Bool
deriving DecidableEq, Repr

/-- `HuggingFaceModel.generate_response`: the not-loaded guard returns a
fixed message; a raising backend is converted to the
`Error generating response: ...` text by the method's own `except` clause;
otherwise the cleaned backend text is returned.  `prompt` and
`system_prompt` are consumed by the external computation abstracted into
`outcome`. -/
def generate_response (modelLoaded : Bool) (outcome : BackendOutcome)
    (prompt system_prompt : String) : String :=
  if modelLoaded = false then "Model not loaded. Please load a model first."
  else
    match outcome with
    | .ok t => t
    | .raises e => "Error generating response: " ++ e

/-! ## Orchestrator (`ALICE`, alice_core.py) -/

/-- Observable external effects emitted by the lifecycle operations. -/
inductive Event : Type where
  | logInfo (msg : String)
  | loadModelRequested
  | unloadModelRequested
  | printGreeting (greeting : String)
deriving DecidableEq, Repr

/-- The mutable state of one `ALICE` instance: the configuration record, the
memory manager, the durable conversation log, the current mode, the running
flag, and whether the backend currently holds a loaded model. -/
structure AliceState where
  config : AliceConfig
  memory : MemoryManager
  conversations : List ConvRow
  current_mode : AIMode
  is_running : Bool
  modelLoaded : Bool
deriving DecidableEq, Repr

/-- `HuggingFaceModel.load_model`: tries to load `config.model_name`; on an
exception it sets `config.model_name = "gpt2"` and loads the fallback.  On
both paths the model ends loaded. -/
def ALICE.load_model (s : AliceState) (loadOk : Bool) : AliceState :=
  if loadOk then { s with modelLoaded := true }
  else { s with modelLoaded := true, config := { s.config with model_name := "gpt2" } }

/-- `ALICE.start` (alice_core.py:420): logs, sets `is_running = True`,
unconditionally requests the backend load, and prints the current persona's
greeting.  There is no guard on the running flag. -/
def ALICE.start (s : AliceState) (loadOk : Bool) : AliceState × List Event :=
  let s1 := { s with is_running := true }
  let s2 := ALICE.load_model s1 loadOk
  let persona := PersonaManager.get_persona s2.current_mode
  (s2, [Event.logInfo "Starting ALICE system...", Event.loadModelRequested,
        Event.printGreeting persona.greeting,
        Event.logInfo ("ALICE started in " ++ s2.current_mode.value ++ " mode")])

/-- `ALICE.stop`: clears the running flag and unloads the model.  The
short-term memory is not touched. -/
def ALICE.stop (s : AliceState) : AliceState :=
  { s with is_running := false, modelLoaded := false }

/-- `ALICE.switch_mode`: a no-op with an `Already in ...` message when the
target equals the current mode; otherwise updates `current_mode` and
`config.current_mode` and returns the target persona's name and greeting. -/
def ALICE.switch_mode (s : AliceState) (new_mode : AIMode) : AliceState × String :=
  if new_mode ≠ s.current_mode then
    let s1 := { s with current_mode := new_mode,
                       config := { s.config with current_mode := new_mode } }
    let persona := PersonaManager.get_persona new_mode
    (s1, "Switched to " ++ persona.name ++ " mode.\n" ++ persona.greeting)
  else
    (s, "Already in " ++ new_mode.value ++ " mode.")

/-- Rendering of one short-term entry inside the context loop of
`ALICE.process_input`. -/
def renderEntry (e : Entry) : String :=
  "Human: " ++ e.user_input ++ "\nAI: " ++ e.alice_response ++ "\n"

/-- The `context` string assembled by `ALICE.process_input`: empty for an
empty short-term memory; otherwise the `Previous conversation:` header, the
last three entries rendered in order, and the `Current conversation:`
separator. -/
def buildContext (stm : List Entry) : String :=
  if stm.isEmpty then ""
  else
    "Previous conversation:\n" ++
    ((takeLast 3 stm).foldl (fun acc e => acc ++ renderEntry e) "") ++
    "\nCurrent conversation:\n"

/-- The `/help` response text. -/
def helpText : String :=
  "ALICE System Commands:\n/help - Show this help message\n/mode <mode_name> - Switch AI mode (assistant, companion, roleplay, dungeon_master, storyteller)\n/status - Show system status\n/memory - Show recent memory\n/config - Show current configuration\n/save - Save current configuration\n/quit - Exit ALICE system"

/-- `', '.join([m.value for m in AIMode])`. -/
def availableModes : String := joinSep ", " (AIMode.all.map AIMode.value)

/-- The `/status` response.  Numeric rendering approximates Python `str()`
(no claim depends on this text). -/
def statusText (s : AliceState) : String :=
  "ALICE System Status:\nCurrent Mode: " ++ s.current_mode.value ++
  "\nModel: " ++ s.config.model_name ++
  "\nShort-term Memory: " ++ toString s.memory.short_term_memory.length ++ " entries" ++
  "\nRunning: " ++ (if s.is_running then "True" else "False") ++
  "\nTemperature: " ++ toString s.config.temperature ++
  "\nMax Tokens: " ++ toString s.config.max_tokens

/-- The `/memory` response: the last five entries, numbered from 1, with the
texts truncated to 50 characters. -/
def memoryText (s : AliceState) : String :=
  if s.memory.short_term_memory.isEmpty then "No recent memory available."
  else
    ((takeLast 5 s.memory.short_term_memory).foldl
      (fun (acc : String × Nat) e =>
        (acc.1 ++ toString acc.2 ++ ". [" ++ e.mode ++ "] Human: " ++
           pyTake e.user_input 50 ++ "...\n   ALICE: " ++
           pyTake e.alice_response 50 ++ "...\n\n", acc.2 + 1))
      ("Recent Memory:\n", 1)).1

/-- The `/config` response (numeric rendering approximated as in
`statusText`). -/
def configText (s : AliceState) : String :=
  "Current Configuration:\nMode: " ++ s.config.current_mode.value ++
  "\nModel: " ++ s.config.model_name ++
  "\nTemperature: " ++ toString s.config.temperature ++
  "\nMax Tokens: " ++ toString s.config.max_tokens ++
  "\nSafety Level: " ++ s.config.safety_level ++
  "\nMemory Retention: " ++ toString s.config.memory_retention_days ++ " days" ++
  "\nLog Conversations: " ++ (if s.config.log_conversations then "True" else "False")

/-- `ALICE._handle_system_command` (alice_core.py:490).  The command is
lower-cased and stripped; in the `/mode ` branch, `cmd.split(' ', 1)[1]`
equals the slice `cmd[6:]` because the branch guard fixes characters 0..5 of
`cmd` to `/mode `, putting the first space at index 5.  `/save` writes the
configuration file (an external effect with no engine-state change); `/quit`
runs the stop sequence. -/
def ALICE.handle_system_command (s : AliceState) (command : String) : AliceState × String :=
  let cmd := pyStrip (pyLower command)
  if cmd = "/help" then (s, helpText)
  else if pyStartsWith cmd "/mode " then
    let mode_name := pyStrip (pyDrop cmd 6)
    match AIMode.ofString? mode_name with
    | some new_mode => ALICE.switch_mode s new_mode
    | none => (s, "Unknown mode: " ++ mode_name ++ ". Available modes: " ++ availableModes)
  else if cmd = "/status" then (s, statusText s)
  else if cmd = "/memory" then (s, memoryText s)
  else if cmd = "/config" then (s, configText s)
  else if cmd = "/save" then (s, "Configuration saved successfully.")
  else if cmd = "/quit" then (ALICE.stop s, "Goodbye! ALICE system stopped.")
  else (s, "Unknown command: " ++ command ++ ". Type /help for available commands.")

/-- `ALICE.process_input` (alice_core.py:455).  Returns the final object
state together with either the returned string or a raised `StorageError`:
an uncaught sqlite exception from `save_to_long_term` propagates to the
caller, after the short-term append has already mutated the memory and
before the turn is logged. -/
def ALICE.process_input (s : AliceState) (env : Env) (user_input : String) :
    AliceState × Except StorageError String :=
  if s.is_running = false then
    (s, .ok "ALICE system is not running. Please start the system first.")
  else if pyStartsWith (pyLower user_input) "/" = true then
    let r := ALICE.handle_system_command s user_input
    (r.1, .ok r.2)
  else
    let system_prompt := PersonaManager.get_system_prompt s.current_mode
    let context := buildContext s.memory.short_term_memory
    let full_prompt := context ++ user_input
    let response := generate_response s.modelLoaded env.backend full_prompt system_prompt
    let s1 := { s with memory := s.memory.add_to_short_term env.now user_input response s.current_mode }
    if s1.config.log_conversations then
      match save_to_long_term s1.conversations env.storageOk env.now user_input response s1.current_mode with
      | .ok log => ({ s1 with conversations := log }, .ok response)
      | .error e => (s1, .error e)
    else
      (s1, .ok response)

/-! ## Concrete states and environments used by witnesses -/

/-- A running engine with default configuration, empty memory, loaded model. -/
def runningState : AliceState :=
  { config := AliceConfig.defaults, memory := MemoryManager.init,
    conversations := [], current_mode := .assistant,
    is_running := true, modelLoaded := true }

/-- A running engine whose short-term memory holds one turn. -/
def stateWithMemory : AliceState :=
  { runningState with
    memory := MemoryManager.init.add_to_short_term "2026-01-01T00:00:00" "hi" "hello" .assistant }

/-- Healthy environment: backend generates, storage accepts writes. -/
def envOk : Env :=
  { now := "2026-01-01T00:00:00", loadOk := true, backend := .ok "hi there", storageOk := true }

/-- Environment whose durable storage rejects writes. -/
def envStoreFail : Env :=
  { now := "2026-01-01T00:00:00", loadOk := true, backend := .ok "hi there", storageOk := false }

/-- Environment whose generation backend raises. -/
def envRaise : Env :=
  { now := "2026-01-01T00:00:00", loadOk := true, backend := .raises "boom", storageOk := true }

end Alice

namespace Alice

/-! ## Theorems -/

theorem takeLast_length_le {α : Type} (n : Nat) (l : List α) :
    (takeLast n l).length ≤ n := by
  simp only [takeLast, List.length_drop]
  omega

theorem push_takeLast {α : Type} (maxN : Nat) (l : List α) (e : α) :
    (if (takeLast maxN l ++ [e]).length > maxN then (takeLast maxN l ++ [e]).tail
     else takeLast maxN l ++ [e]) = takeLast maxN (l ++ [e]) := by
  by_cases hle : maxN ≤ l.length
  · have hlen : (takeLast maxN l).length = maxN := by
      simp only [takeLast, List.length_drop]
      omega
    have hgt : (takeLast maxN l ++ [e]).length > maxN := by
      simp [List.length_append, hlen]
    rw [if_pos hgt]
    by_cases h0 : maxN = 0
    · subst h0
      have hnil : takeLast 0 l = [] := by
        simp [takeLast, List.drop_length]
      rw [hnil]
      have : takeLast 0 (l ++ [e]) = [] := by
        simp [takeLast, List.drop_length]
      rw [this]
      rfl
    · have h1 : (1 : Nat) ≤ (takeLast maxN l).length := by omega
      rw [← List.drop_one, List.drop_append_of_le_length h1]
      simp only [takeLast, List.drop_drop, List.length_append, List.length_singleton]
      rw [List.drop_append_of_le_length (show l.length + 1 - maxN ≤ l.length by omega)]
      have hidx : l.length + 1 - maxN = l.length - maxN + 1 := by omega
      rw [hidx]
  · have hl : takeLast maxN l = l := by
      simp only [takeLast]
      rw [Nat.sub_eq_zero_of_le (by omega)]
      exact List.drop_zero l
    rw [hl]
    have hng : ¬ (l ++ [e]).length > maxN := by
      simp [List.length_append]
      omega
    rw [if_neg hng]
    simp only [takeLast, List.length_append, List.length_singleton]
    rw [Nat.sub_eq_zero_of_le (by omega)]
    exact (List.drop_zero _).symm

theorem MemoryManager.addAll_closed (calls : List (String × String × String × AIMode)) :
    ∀ (m : MemoryManager) (l : List Entry),
      m.short_term_memory = takeLast m.max_short_term l →
      (m.addAll calls).short_term_memory
          = takeLast m.max_short_term (l ++ calls.map mkEntry)
      ∧ (m.addAll calls).max_short_term = m.max_short_term := by
  induction calls with
  | nil =>
    intro m l h
    exact ⟨by simpa using h, rfl⟩
  | cons c cs ih =>
    intro m l h
    have hstep : (m.add_to_short_term c.1 c.2.1 c.2.2.1 c.2.2.2).short_term_memory
        = takeLast m.max_short_term (l ++ [mkEntry c]) := by
      show (if (m.short_term_memory ++ [mkEntry c]).length > m.max_short_term
            then (m.short_term_memory ++ [mkEntry c]).tail
            else m.short_term_memory ++ [mkEntry c])
          = takeLast m.max_short_term (l ++ [mkEntry c])
      rw [h]
      exact push_takeLast m.max_short_term l (mkEntry c)
    have hmax : (m.add_to_short_term c.1 c.2.1 c.2.2.1 c.2.2.2).max_short_term
        = m.max_short_term := rfl
    have hrec := ih (m.add_to_short_term c.1 c.2.1 c.2.2.1 c.2.2.2) (l ++ [mkEntry c])
      (by rw [hstep, hmax])
    refine ⟨?_, ?_⟩
    · have h1 : (m.addAll (c :: cs)).short_term_memory
          = ((m.add_to_short_term c.1 c.2.1 c.2.2.1 c.2.2.2).addAll cs).short_term_memory := rfl
      rw [h1, hrec.1, hmax]
      congr 1
      simp [List.append_assoc]
    · have h2 : (m.addAll (c :: cs)).max_short_term
          = ((m.add_to_short_term c.1 c.2.1 c.2.2.1 c.2.2.2).addAll cs).max_short_term := rfl
      rw [h2, hrec.2, hmax]

theorem MemoryManagerPi.addAllPi_closed (calls : List (String × String × AIMode)) :
    ∀ (m : MemoryManagerPi) (l : List EntryPi),
      m.short_term_memory = takeLast m.max_short_term l →
      (m.addAll calls).short_term_memory
          = takeLast m.max_short_term (l ++ calls.map mkEntryPi)
      ∧ (m.addAll calls).max_short_term = m.max_short_term := by
  induction calls with
  | nil =>
    intro m l h
    exact ⟨by simpa using h, rfl⟩
  | cons c cs ih =>
    intro m l h
    have hstep : (m.add_to_short_term c.1 c.2.1 c.2.2).short_term_memory
        = takeLast m.max_short_term (l ++ [mkEntryPi c]) := by
      show (if (m.short_term_memory ++ [mkEntryPi c]).length > m.max_short_term
            then (m.short_term_memory ++ [mkEntryPi c]).tail
            else m.short_term_memory ++ [mkEntryPi c])
          = takeLast m.max_short_term (l ++ [mkEntryPi c])
      rw [h]
      exact push_takeLast m.max_short_term l (mkEntryPi c)
    have hmax : (m.add_to_short_term c.1 c.2.1 c.2.2).max_short_term
        = m.max_short_term := rfl
    have hrec := ih (m.add_to_short_term c.1 c.2.1 c.2.2) (l ++ [mkEntryPi c])
      (by rw [hstep, hmax])
    refine ⟨?_, ?_⟩
    · have h1 : (m.addAll (c :: cs)).short_term_memory
          = ((m.add_to_short_term c.1 c.2.1 c.2.2).addAll cs).short_term_memory := rfl
      rw [h1, hrec.1, hmax]
      congr 1
      simp [List.append_assoc]
    · have h2 : (m.addAll (c :: cs)).max_short_term
          = ((m.add_to_short_term c.1 c.2.1 c.2.2).addAll cs).max_short_term := rfl
      rw [h2, hrec.2, hmax]

/-- Claim C3: for every sequence of `add_to_short_term` calls starting from a
fresh manager, the short-term buffer equals exactly the last
`max_short_term` entries of the call sequence in insertion (chronological)
order — so the bound (20 in the full profile, 5 in the Pi profile) is never
exceeded and the oldest entry is evicted first. -/
theorem short_term_memory_fifo (calls : List (String × String × String × AIMode))
    (callsPi : List (String × String × AIMode)) :
    (MemoryManager.init.addAll calls).short_term_memory = takeLast 20 (calls.map mkEntry)
  ∧ (MemoryManager.init.addAll calls).short_term_memory.length ≤ 20
  ∧ (MemoryManagerPi.init.addAll callsPi).short_term_memory = takeLast 5 (callsPi.map mkEntryPi)
  ∧ (MemoryManagerPi.init.addAll callsPi).short_term_memory.length ≤ 5 := by
  have h := MemoryManager.addAll_closed calls MemoryManager.init [] (by rfl)
  have hp := MemoryManagerPi.addAllPi_closed callsPi MemoryManagerPi.init [] (by rfl)
  refine ⟨by simpa using h.1, ?_, by simpa using hp.1, ?_⟩
  · rw [show (MemoryManager.init.addAll calls).short_term_memory
        = takeLast 20 (calls.map mkEntry) from by simpa using h.1]
    exact takeLast_length_le 20 _
  · rw [show (MemoryManagerPi.init.addAll callsPi).short_term_memory
        = takeLast 5 (callsPi.map mkEntryPi) from by simpa using hp.1]
    exact takeLast_length_le 5 _

end Alice

namespace Alice

theorem mode_prefix_startsWith (nm : String) :
    pyStartsWith ("/mode " ++ nm) "/mode " = true := by
  simp [pyStartsWith, String.data_append, List.isPrefixOf]

theorem mode_prefix_drop (nm : String) : pyDrop ("/mode " ++ nm) 6 = nm := by
  simp [pyDrop, String.data_append]

theorem mode_cmd_ne_help (nm : String) : ("/mode " ++ nm) ≠ "/help" := by
  intro h
  have h2 := congrArg (fun s => s.data.length) h
  simp [String.data_append] at h2

theorem handle_mode_eval (s : AliceState) (c nm : String)
    (hc : pyStrip (pyLower c) = "/mode " ++ nm) :
    ALICE.handle_system_command s c =
      (match AIMode.ofString? (pyStrip nm) with
       | some new_mode => ALICE.switch_mode s new_mode
       | none => (s, "Unknown mode: " ++ pyStrip nm ++ ". Available modes: " ++ availableModes)) := by
  simp only [ALICE.handle_system_command]
  rw [hc, if_neg (mode_cmd_ne_help nm), mode_prefix_startsWith nm, mode_prefix_drop nm]
  simp

/-- Claim C7: dispatching a command whose lower-cased, stripped form is
`/mode <name>`: an unknown name returns the error message enumerating the
valid mode names and leaves the state unchanged; a valid name different from
the current mode switches to it and the response carries the target
persona's greeting; the current mode's own name returns the `Already in ...`
message with no state change. -/
theorem mode_command_dispatch (s : AliceState) (c nm : String)
    (hc : pyStrip (pyLower c) = "/mode " ++ nm) :
    (AIMode.ofString? (pyStrip nm) = none →
        ALICE.handle_system_command s c =
          (s, "Unknown mode: " ++ pyStrip nm ++ ". Available modes: " ++ availableModes))
  ∧ (∀ m : AIMode, AIMode.ofString? (pyStrip nm) = some m → m ≠ s.current_mode →
        ALICE.handle_system_command s c =
          ({ s with current_mode := m, config := { s.config with current_mode := m } },
           "Switched to " ++ (PersonaManager.get_persona m).name ++ " mode.\n" ++
             (PersonaManager.get_persona m).greeting))
  ∧ (∀ m : AIMode, AIMode.ofString? (pyStrip nm) = some m → m = s.current_mode →
        ALICE.handle_system_command s c = (s, "Already in " ++ m.value ++ " mode.")) := by
  refine ⟨?_, ?_, ?_⟩
  · intro hof
    rw [handle_mode_eval s c nm hc, hof]
  · intro m hof hne
    rw [handle_mode_eval s c nm hc, hof]
    show ALICE.switch_mode s m = _
    unfold ALICE.switch_mode
    rw [if_pos hne]
  · intro m hof heq
    rw [handle_mode_eval s c nm hc, hof]
    show ALICE.switch_mode s m = _
    unfold ALICE.switch_mode
    rw [if_neg (fun hne => hne heq)]

/-- Witness for `mode_command_dispatch`: `/MODE Companion` typed from
assistant mode switches to companion and returns its greeting. -/
theorem mode_command_dispatch_witness :
    ALICE.handle_system_command runningState "/MODE Companion" =
      ({ runningState with
          current_mode := AIMode.companion,
          config := { runningState.config with current_mode := AIMode.companion } },
       "Switched to " ++ (PersonaManager.get_persona AIMode.companion).name ++ " mode.\n" ++
         (PersonaManager.get_persona AIMode.companion).greeting) :=
  (mode_command_dispatch runningState "/MODE Companion" "companion" (by decide)).2.1
    AIMode.companion (by decide) (by decide)

/-- Claim C8 counterexample: `/quit` stops the engine, but the short-term
memory still holds its turn afterwards — shutdown does not clear the
buffer. -/
theorem quit_leaves_short_term_memory :
    (ALICE.handle_system_command stateWithMemory "/quit").1.is_running = false
  ∧ (ALICE.handle_system_command stateWithMemory "/quit").1.memory.short_term_memory.length = 1 := by
  decide

/-- Claim C8 (amended): `stop` — called directly or via `/quit` — sets the
running flag to false but leaves the short-term memory exactly as it was; no
shutdown path clears the buffer. -/
theorem stop_preserves_short_term_memory (s : AliceState) :
    (ALICE.stop s).memory = s.memory
  ∧ (ALICE.stop s).is_running = false
  ∧ ∀ c : String, pyStrip (pyLower c) = "/quit" →
      (ALICE.handle_system_command s c).1.memory = s.memory ∧
      (ALICE.handle_system_command s c).1.is_running = false := by
  refine ⟨rfl, rfl, ?_⟩
  intro c hc
  simp only [ALICE.handle_system_command]
  rw [hc]
  simp [show pyStartsWith "/quit" "/mode " = false from rfl, ALICE.stop]

/-- Witness for `stop_preserves_short_term_memory` at a concrete state with
one remembered turn. -/
theorem stop_preserves_short_term_memory_witness :
    (ALICE.handle_system_command stateWithMemory "/quit").1.memory = stateWithMemory.memory ∧
    (ALICE.handle_system_command stateWithMemory "/quit").1.is_running = false :=
  (stop_preserves_short_term_memory stateWithMemory).2.2 "/quit" (by decide)

/-- Claim C9 counterexample: a mode switch writes the externally supplied
configuration record — `config.current_mode` changes. -/
theorem switch_mode_writes_config :
    (ALICE.switch_mode runningState AIMode.companion).1.config.current_mode = AIMode.companion
  ∧ runningState.config.current_mode = AIMode.assistant := by
  decide

theorem handle_config_frame (s : AliceState) (c : String) :
    ∃ md, (ALICE.handle_system_command s c).1.config = { s.config with current_mode := md } := by
  simp only [ALICE.handle_system_command]
  split
  · exact ⟨s.config.current_mode, rfl⟩
  · split
    · split
      · rename_i m _
        simp only [ALICE.switch_mode]
        split
        · exact ⟨m, rfl⟩
        · exact ⟨s.config.current_mode, rfl⟩
      · exact ⟨s.config.current_mode, rfl⟩
    · split
      · exact ⟨s.config.current_mode, rfl⟩
      · split
        · exact ⟨s.config.current_mode, rfl⟩
        · split
          · exact ⟨s.config.current_mode, rfl⟩
          · split
            · exact ⟨s.config.current_mode, rfl⟩
            · split
              · exact ⟨s.config.current_mode, rfl⟩
              · exact ⟨s.config.current_mode, rfl⟩

theorem process_config_frame (s : AliceState) (env : Env) (input : String) :
    ∃ md, (ALICE.process_input s env input).1.config = { s.config with current_mode := md } := by
  simp only [ALICE.process_input]
  split
  · exact ⟨s.config.current_mode, rfl⟩
  · split
    · exact handle_config_frame s input
    · split
      · split
        · exact ⟨s.config.current_mode, rfl⟩
        · exact ⟨s.config.current_mode, rfl⟩
      · exact ⟨s.config.current_mode, rfl⟩

/-- Claim C9 (amended): across mode switches, command handling, and turn
processing, the only configuration field the engine ever writes is
`current_mode` (written by a mode switch); every other field of the record
is unchanged by every operation. -/
theorem config_only_mode_written (s : AliceState) (env : Env) (input : String) (m : AIMode) :
    (∃ md, (ALICE.switch_mode s m).1.config = { s.config with current_mode := md })
  ∧ (∃ md, (ALICE.handle_system_command s input).1.config = { s.config with current_mode := md })
  ∧ (∃ md, (ALICE.process_input s env input).1.config = { s.config with current_mode := md }) := by
  refine ⟨?_, handle_config_frame s input, process_config_frame s env input⟩
  simp only [ALICE.switch_mode]
  split
  · exact ⟨m, rfl⟩
  · exact ⟨s.config.current_mode, rfl⟩

/-- Claim C4 counterexample: calling `start` while the engine is already
running still requests a backend load — `ALICE.start` has no idempotency
guard. -/
theorem start_not_idempotent :
    runningState.is_running = true
  ∧ Event.loadModelRequested ∈ (ALICE.start runningState true).2 := by
  refine ⟨rfl, ?_⟩
  simp [ALICE.start]

/-- Claim C4 (amended): `start` unconditionally sets the running flag,
requests a backend load, and announces the current persona's greeting,
whether or not the engine is already running. -/
theorem start_always_loads_and_greets (s : AliceState) (loadOk : Bool) :
    (ALICE.start s loadOk).1.is_running = true
  ∧ Event.loadModelRequested ∈ (ALICE.start s loadOk).2
  ∧ Event.printGreeting (PersonaManager.get_persona s.current_mode).greeting
      ∈ (ALICE.start s loadOk).2 := by
  cases loadOk <;> simp [ALICE.start, ALICE.load_model]

theorem takeLast_map {α β : Type} (g : α → β) (n : Nat) (l : List α) :
    takeLast n (l.map g) = (takeLast n l).map g := by
  simp only [takeLast, List.length_map]
  exact (List.map_drop g l (l.length - n)).symm

theorem renderEntry_set_mode (e : Entry) (mo : String) :
    renderEntry { e with mode := mo } = renderEntry e := rfl

theorem buildContext_map (g : Entry → Entry)
    (hg : ∀ e, renderEntry (g e) = renderEntry e) :
    ∀ stm : List Entry, buildContext (stm.map g) = buildContext stm := by
  intro stm
  unfold buildContext
  rw [show (stm.map g).isEmpty = stm.isEmpty by cases stm <;> rfl]
  rw [takeLast_map, List.foldl_map]
  simp only [hg]

/-- Claim C10: switching mode leaves the short-term memory unchanged, so the
next turn's prompt context is identical before and after the switch (turns
recorded under the previous mode still appear in the window); moreover the
context construction ignores the mode recorded on each entry entirely (the
window is neither cleared nor filtered by mode). -/
theorem switch_mode_preserves_context (s : AliceState) (m : AIMode) :
    (ALICE.switch_mode s m).1.memory = s.memory
  ∧ (∀ input : String,
      buildContext (ALICE.switch_mode s m).1.memory.short_term_memory ++ input =
        buildContext s.memory.short_term_memory ++ input)
  ∧ (∀ (stm : List Entry) (f : Entry → String),
      buildContext (stm.map (fun e => { e with mode := f e })) = buildContext stm) := by
  have hmem : (ALICE.switch_mode s m).1.memory = s.memory := by
    simp only [ALICE.switch_mode]
    split
    · rfl
    · rfl
  refine ⟨hmem, fun input => by rw [hmem], ?_⟩
  intro stm f
  exact buildContext_map (fun e => { e with mode := f e }) (fun e => rfl) stm

end Alice

namespace Alice

theorem join_map_render (l : List Entry) :
    String.join (l.map renderEntry) = l.foldl (fun acc e => acc ++ renderEntry e) "" := by
  simp only [String.join, List.foldl_map]

theorem process_input_memory (s : AliceState) (env : Env) (input : String)
    (hrun : s.is_running = true) (hcmd : pyStartsWith (pyLower input) "/" = false) :
    (ALICE.process_input s env input).1.memory =
      s.memory.add_to_short_term env.now input
        (generate_response s.modelLoaded env.backend
          (buildContext s.memory.short_term_memory ++ input)
          (PersonaManager.get_system_prompt s.current_mode))
        s.current_mode := by
  simp only [ALICE.process_input]
  rw [hrun, hcmd, if_neg (fun h => Bool.noConfusion h), if_neg (fun h => Bool.noConfusion h)]
  split
  · split
    · rfl
    · rfl
  · rfl

theorem process_input_running (s : AliceState) (env : Env) (input : String)
    (hrun : s.is_running = true) (hcmd : pyStartsWith (pyLower input) "/" = false) :
    (ALICE.process_input s env input).1.is_running = true := by
  simp only [ALICE.process_input]
  rw [hrun, hcmd, if_neg (fun h => Bool.noConfusion h), if_neg (fun h => Bool.noConfusion h)]
  split
  · split
    · rfl
    · rfl
  · rfl

theorem process_input_result (s : AliceState) (env : Env) (input : String)
    (hrun : s.is_running = true) (hcmd : pyStartsWith (pyLower input) "/" = false) :
    (ALICE.process_input s env input).2 =
      if s.config.log_conversations = true ∧ env.storageOk = false
      then Except.error StorageError.raised
      else Except.ok (generate_response s.modelLoaded env.backend
             (buildContext s.memory.short_term_memory ++ input)
             (PersonaManager.get_system_prompt s.current_mode)) := by
  simp only [ALICE.process_input]
  rw [hrun, hcmd, if_neg (fun h => Bool.noConfusion h), if_neg (fun h => Bool.noConfusion h)]
  cases hl : s.config.log_conversations <;> cases hs : env.storageOk <;>
    simp [save_to_long_term, hl, hs]

/-- Claim C5: the prompt body assembled by `process_input` is the raw user
text when the window is empty, and otherwise the previous-conversation
header, each window turn rendered `Human: <user>\nAI: <agent>\n` in
chronological order, the current-conversation separator, and the raw user
text; in particular with empty memory and input `hello` the prompt body is
exactly `hello`, and the short-term memory holds one turn after the call. -/
theorem prompt_body_spec :
    (∀ (stm : List Entry) (user_input : String),
        buildContext stm ++ user_input =
          if stm = [] then user_input
          else
            "Previous conversation:\n" ++
              String.join ((takeLast 3 stm).map renderEntry) ++
              "\nCurrent conversation:\n" ++ user_input)
  ∧ (∀ (s : AliceState) (env : Env),
        s.is_running = true → s.memory = MemoryManager.init →
        buildContext s.memory.short_term_memory ++ "hello" = "hello" ∧
        (ALICE.process_input s env "hello").1.memory.short_term_memory.length = 1) := by
  constructor
  · intro stm user_input
    cases stm with
    | nil =>
      rw [if_pos rfl, show buildContext [] = "" from rfl, String.empty_append]
    | cons a l =>
      rw [if_neg (by simp), join_map_render]
      rfl
  · intro s env hrun hm
    constructor
    · rw [hm, show buildContext MemoryManager.init.short_term_memory = "" from rfl,
          String.empty_append]
    · rw [process_input_memory s env "hello" hrun (by rfl), hm]
      rfl

/-- Witness for `prompt_body_spec` at the initial running state. -/
theorem prompt_body_spec_witness :
    buildContext runningState.memory.short_term_memory ++ "hello" = "hello" ∧
    (ALICE.process_input runningState envOk "hello").1.memory.short_term_memory.length = 1 :=
  prompt_body_spec.2 runningState envOk rfl rfl

/-- Claim C6: while running, generation-backend failures surface as ordinary
textual responses: a raising backend yields the `Error generating
response: ...` text (or the fixed not-loaded message when no model is
loaded), an unloaded backend always yields the fixed not-loaded message,
`process_input` returns these as normal results rather than propagating a
fault, and the running flag stays true. -/
theorem backend_error_recovered (s : AliceState) (env : Env) (input e : String)
    (hrun : s.is_running = true)
    (hcmd : pyStartsWith (pyLower input) "/" = false)
    (hstore : env.storageOk = true) :
    (env.backend = BackendOutcome.raises e →
        (ALICE.process_input s env input).2 =
          Except.ok (if s.modelLoaded = true
                     then "Error generating response: " ++ e
                     else "Model not loaded. Please load a model first."))
  ∧ (s.modelLoaded = false →
        (ALICE.process_input s env input).2 =
          Except.ok "Model not loaded. Please load a model first.")
  ∧ (ALICE.process_input s env input).1.is_running = true := by
  have hres : (ALICE.process_input s env input).2 =
      Except.ok (generate_response s.modelLoaded env.backend
        (buildContext s.memory.short_term_memory ++ input)
        (PersonaManager.get_system_prompt s.current_mode)) := by
    rw [process_input_result s env input hrun hcmd]
    simp [hstore]
  refine ⟨?_, ?_, process_input_running s env input hrun hcmd⟩
  · intro hb
    rw [hres, hb]
    cases hml : s.modelLoaded <;> simp [generate_response, hml]
  · intro hml
    rw [hres]
    simp [generate_response, hml]

/-- Witness for `backend_error_recovered`: a raising backend at the initial
running state. -/
theorem backend_error_recovered_witness :
    (ALICE.process_input runningState envRaise "hi").2 =
      Except.ok (if runningState.modelLoaded = true
                 then "Error generating response: " ++ "boom"
                 else "Model not loaded. Please load a model first.")
  ∧ (ALICE.process_input runningState envRaise "hi").1.is_running = true :=
  ⟨(backend_error_recovered runningState envRaise "hi" "boom" rfl rfl rfl).1 rfl,
   (backend_error_recovered runningState envRaise "hi" "boom" rfl rfl rfl).2.2⟩

/-- Claim C2 counterexample: with the durable write failing, `process_input`
raises the storage error to its caller instead of returning the generated
response. -/
theorem storage_error_reaches_caller :
    (ALICE.process_input runningState envStoreFail "hello").2
      = Except.error StorageError.raised := by
  rfl

/-- Claim C2 (amended): when the durable write fails during a logged turn,
the short-term memory has already been updated with the new turn, but the
sqlite error propagates out of `process_input` and the generated response is
not returned to the caller. -/
theorem storage_failure_keeps_short_term (s : AliceState) (env : Env) (input : String)
    (hrun : s.is_running = true)
    (hcmd : pyStartsWith (pyLower input) "/" = false)
    (hlog : s.config.log_conversations = true)
    (hfail : env.storageOk = false) :
    (ALICE.process_input s env input).2 = Except.error StorageError.raised
  ∧ (ALICE.process_input s env input).1.memory =
      s.memory.add_to_short_term env.now input
        (generate_response s.modelLoaded env.backend
          (buildContext s.memory.short_term_memory ++ input)
          (PersonaManager.get_system_prompt s.current_mode))
        s.current_mode := by
  refine ⟨?_, process_input_memory s env input hrun hcmd⟩
  rw [process_input_result s env input hrun hcmd]
  simp [hlog, hfail]

/-- Witness for `storage_failure_keeps_short_term` at the initial running
state with a failing store. -/
theorem storage_failure_keeps_short_term_witness :
    (ALICE.process_input runningState envStoreFail "hello").2 = Except.error StorageError.raised
  ∧ (ALICE.process_input runningState envStoreFail "hello").1.memory =
      runningState.memory.add_to_short_term envStoreFail.now "hello"
        (generate_response runningState.modelLoaded envStoreFail.backend
          (buildContext runningState.memory.short_term_memory ++ "hello")
          (PersonaManager.get_system_prompt runningState.current_mode))
        runningState.current_mode :=
  storage_failure_keeps_short_term runningState envStoreFail "hello" rfl rfl rfl rfl

/-- Claim C1 (code-bug evidence): storing a fact twice with the same
(category, key) pair leaves two `user_facts` rows, not one — the schema
declares no UNIQUE constraint on (category, key), so the `INSERT OR
REPLACE` of `store_user_fact` never replaces — and `get_user_facts` then
returns both the first and the second value. -/
theorem store_user_fact_duplicate_rows :
    ((MemoryManager.store_user_fact
        (MemoryManager.store_user_fact UserFactsTable.empty
          "personal" "name" "Alice" 1 "2026-01-01T00:00:00")
        "personal" "name" "Bob" (1/2) "2026-01-02T00:00:00").rows.filter
      (fun r => r.category == "personal" && r.key == "name")).length = 2
  ∧ MemoryManager.get_user_facts
      (MemoryManager.store_user_fact
        (MemoryManager.store_user_fact UserFactsTable.empty
          "personal" "name" "Alice" 1 "2026-01-01T00:00:00")
        "personal" "name" "Bob" (1/2) "2026-01-02T00:00:00")
      "personal"
    = [("name", "Alice", 1), ("name", "Bob", 1/2)] := by
  exact ⟨rfl, rfl⟩

end Alice
